import Mathlib

/-!
Verification of the rendering-fetch orchestrator in
src/scrapers/playwright_fetch.py (repository beautrafil-scrape).

The Python module is shallowly embedded below:

* Python str.lower / str.endswith are modelled over ASCII on String.data
  (URLs and the extension denylist are ASCII).
* random.choice over the user-agent pool is modelled by an oracle pick
  r : Nat, selecting index r % pool.length; every pool element is reachable.
* asyncio.sleep durations are tracked in tenths of a second (Nat), so the
  source expression 0.8 * attempts is the action sleep (8 * attempts).
* The response handler installed by _inject_403_retry_logic is the pure
  step function on_response on the counter state; an observed response
  trace is an arbitrary list of events, each tagged (by the environment,
  invisibly to the handler) with the navigation attempt that produced it.
* The orchestrator _fetch_html_async is embedded as a trace-producing
  function over a World of environment outcomes (launch failure,
  navigation outcome, rendered document, random pick).  Exiting the
  async_playwright context manager (event pwStop) stops the driver
  process, which also terminates any browser it launched; pwStop is
  emitted on every path, as the async-with guarantees.
-/

namespace PlaywrightFetch

/-- ASCII lowercasing of one character, as Python str.lower acts on ASCII. -/
def lowerChar (c : Char) : Char :=
  if 65 ≤ c.toNat ∧ c.toNat ≤ 90 then Char.ofNat (c.toNat + 32) else c

/-- Python url.lower() for ASCII strings. -/
def pyLower (s : String) : String :=
  ⟨s.data.map lowerChar⟩

/-- Python s.endswith(t). -/
def pyEndsWith (s t : String) : Bool :=
  t.data.isSuffixOf s.data

/-- The part of a URL before any query string or fragment (used only to
state spec claims that speak about the path component; the source code
itself never computes this). -/
def stripQueryFragment (url : String) : String :=
  ⟨url.data.takeWhile (fun c => !(c = '?' || c = '#'))⟩

/-- UA_POOL from src/scrapers/playwright_fetch.py lines 12-19. -/
def UA_POOL : List String :=
  ["Mozilla/5.0 (Windows NT 10.0; Win64; x64) AppleWebKit/537.36 (KHTML, like Gecko) Chrome/124.0.0.0 Safari/537.36",
   "Mozilla/5.0 (Linux; Android 14; Pixel 8) AppleWebKit/537.36 (KHTML, like Gecko) Chrome/124.0.0.0 Mobile Safari/537.36"]

/-- MEDIA_EXTENSIONS from src/scrapers/playwright_fetch.py lines 22-39. -/
def MEDIA_EXTENSIONS : List String :=
  [".jpg", ".jpeg", ".png", ".webp", ".gif", ".svg",
   ".mp4", ".webm", ".avi", ".mov", ".mp3", ".ogg",
   ".woff", ".woff2", ".ttf", ".eot"]

/-- random.choice over a pool, driven by an oracle pick r. -/
def random_choice (pool : List String) (r : Nat) : String :=
  pool.getD (r % pool.length) ""

/-- Outcome of a route handler: Route.abort() or Route.continue_(). -/
inductive RouteAction where
  | abort
  | continue_
deriving DecidableEq, Repr

/-- The route handler _maybe_abort_media (source lines 143-148): lowercase
the full request URL and abort when it ends with a denylisted extension. -/
def _maybe_abort_media (url : String) (banned_exts : List String) : RouteAction :=
  if banned_exts.any (fun e => pyEndsWith (pyLower url) e) then RouteAction.abort
  else RouteAction.continue_

/-- A response event as seen by the on_response handler.  The attempt
field records which navigation produced the event; it is written by the
environment and never read by the handler. -/
structure RespEvent where
  status : Nat
  url : String
  attempt : Nat
deriving DecidableEq, Repr

/-- Observable effects performed by the retry handler, in program order. -/
inductive Action where
  | incAttempts (newCount : Nat)
  | logRetry (n : Nat) (url : String)
  | drawUA (ua : String)
  | setExtraHTTPHeaders (key value : String)
  | setUserAgent (ua : String)
  | sleep (deciseconds : Nat)
  | goto (url wait_arg : String)
deriving DecidableEq, Repr

/-- The on_response closure of _inject_403_retry_logic (source lines
160-175), as a pure step on the attempts counter.  Returns the new
counter and the effects performed, in source order: increment, log, draw
a fresh UA, set the Cache-Control no-cache extra header, apply the UA,
sleep 0.8 times the new counter (in tenths of a second), re-navigate to
the response URL with wait_until networkidle. -/
def on_response (max_retries count r : Nat) (e : RespEvent) : Nat × List Action :=
  if e.status ≠ 403 then (count, [])
  else if count ≥ max_retries then (count, [])
  else
    (count + 1,
     [Action.incAttempts (count + 1),
      Action.logRetry (count + 1) e.url,
      Action.drawUA (random_choice UA_POOL r),
      Action.setExtraHTTPHeaders "Cache-Control" "no-cache",
      Action.setUserAgent (random_choice UA_POOL r),
      Action.sleep (8 * (count + 1)),
      Action.goto e.url "networkidle"])

/-- Run the handler over a delivered event list (the single-threaded event
loop observes response events in delivery order), threading the counter
and the oracle index. -/
def runHandler (max_retries : Nat) (rng : Nat → Nat) :
    List RespEvent → Nat → Nat → Nat × List Action
  | [], _, count => (count, [])
  | e :: rest, i, count =>
    let step := on_response max_retries count (rng i) e
    let restRun := runHandler max_retries rng rest (i + 1) step.1
    (restRun.1, step.2 ++ restRun.2)

/-- Process a whole observed response trace from the initial state
attempts = 0 (source line 158). -/
def processEvents (max_retries : Nat) (rng : Nat → Nat) (events : List RespEvent) :
    Nat × List Action :=
  runHandler max_retries rng events 0 0

/-- Recognize a re-navigation effect. -/
def isGoto : Action → Bool
  | Action.goto _ _ => true
  | _ => false

/-- Number of re-navigations in an effect list. -/
def gotoCount (acts : List Action) : Nat :=
  acts.countP isGoto

/-- A canonical 403 response event tagged with its navigation attempt. -/
def ev403 (a : Nat) : RespEvent :=
  ⟨403, "https://example.com/", a⟩

/-- Observable steps of the injected auto-scroll script. -/
inductive ScrollAct where
  | scrollStep (delay_ms dist : Nat)
  | pauseMs (ms : Nat)
  | resolveReady
deriving DecidableEq, Repr

/-- One setInterval execution of the script in _auto_scroll (source lines
123-140): every 40 ms scroll down by 1024 px, accumulate, and stop once
the accumulated distance reaches document.body.scrollHeight, measured at
that tick (heights k is the height the script reads at tick k); on stop,
wait 400 ms and resolve.  fuel bounds the modelled run; none means the
fuel was exhausted before the stop condition held. -/
def autoScrollGo (heights : Nat → Nat) : Nat → Nat → Nat → Option (List ScrollAct)
  | 0, _, _ => none
  | fuel + 1, k, scrolled =>
    if heights k ≤ scrolled + 1024 then
      some [ScrollAct.scrollStep 40 1024, ScrollAct.pauseMs 400, ScrollAct.resolveReady]
    else
      match autoScrollGo heights fuel (k + 1) (scrolled + 1024) with
      | none => none
      | some rest => some (ScrollAct.scrollStep 40 1024 :: rest)

/-- The _auto_scroll helper: run the interval script from scrolled = 0. -/
def _auto_scroll (heights : Nat → Nat) (fuel : Nat) : Option (List ScrollAct) :=
  autoScrollGo heights fuel 0 0

/-- Context options passed to browser.new_context (source lines 67-78). -/
structure ContextOpts where
  user_agent : String
  locale : String
  timezone_id : String
  viewport_width : Nat
  viewport_height : Nat
  color_scheme : String
deriving DecidableEq, Repr

/-- Keyword options of _fetch_html_async with their source defaults
(source lines 46-55). -/
structure FetchConfig where
  url : String
  wait_until : String := "networkidle"
  scroll : Bool := true
  stealth : Bool := false
  block_media : Bool := false
  retry_403 : Bool := false
  max_retries : Nat := 2
deriving DecidableEq, Repr

/-- Typed failure surface of one fetch call. -/
inductive FetchError where
  | launchFailure
  | navigationFailure
  | timeout
deriving DecidableEq, Repr

/-- Environment outcome of the main page.goto call. -/
inductive GotoOutcome where
  | ok
  | navError
  | timedOut
deriving DecidableEq, Repr

/-- Environment behavior for one fetch call: whether the browser launch
fails, how the main navigation ends, the document the page renders, and
the oracle pick consumed by random.choice. -/
structure World where
  launch_fails : Bool
  goto_outcome : GotoOutcome
  rendered : String
  ua_pick : Nat

/-- Session-level events emitted by the orchestrator, in program order.
pwStart/pwStop delimit the async_playwright context manager; pwStop stops
the driver process and with it any browser the driver launched. -/
inductive OrchEvent where
  | pwStart
  | browserLaunch
  | newContext (opts : Option ContextOpts)
  | newPage
  | stealthPatch
  | routeInstall
  | responseListenerInstall
  | goto (url wait_arg : String)
  | autoScrollRun
  | contentExtract
  | browserClose
  | pwStop
deriving DecidableEq, Repr

/-- The context_opts dict built at source lines 67-76: a stealth identity
profile (random UA from the pool, fixed locale, timezone, viewport and
color scheme) or the automation defaults. -/
def build_context_opts (stealth : Bool) (r : Nat) : Option ContextOpts :=
  if stealth then
    some { user_agent := random_choice UA_POOL r,
           locale := "en-US",
           timezone_id := "America/New_York",
           viewport_width := 1366,
           viewport_height := 768,
           color_scheme := "light" }
  else none

/-- The orchestrator _fetch_html_async (source lines 46-103) as a
trace-producing function: result of the call plus the session events it
performed, for any environment outcome.  The async-with emits pwStop on
every path, including the exceptional ones. -/
def _fetch_html_async (cfg : FetchConfig) (w : World) :
    Except FetchError String × List OrchEvent :=
  if w.launch_fails then
    (Except.error FetchError.launchFailure, [OrchEvent.pwStart, OrchEvent.pwStop])
  else
    let setup : List OrchEvent :=
      [OrchEvent.pwStart, OrchEvent.browserLaunch,
       OrchEvent.newContext (build_context_opts cfg.stealth w.ua_pick),
       OrchEvent.newPage]
      ++ (if cfg.stealth then [OrchEvent.stealthPatch] else [])
      ++ (if cfg.block_media then [OrchEvent.routeInstall] else [])
      ++ (if cfg.retry_403 then [OrchEvent.responseListenerInstall] else [])
    match w.goto_outcome with
    | GotoOutcome.navError =>
      (Except.error FetchError.navigationFailure,
       setup ++ [OrchEvent.goto cfg.url cfg.wait_until, OrchEvent.pwStop])
    | GotoOutcome.timedOut =>
      (Except.error FetchError.timeout,
       setup ++ [OrchEvent.goto cfg.url cfg.wait_until, OrchEvent.pwStop])
    | GotoOutcome.ok =>
      (Except.ok w.rendered,
       setup ++ [OrchEvent.goto cfg.url cfg.wait_until]
         ++ (if cfg.scroll then [OrchEvent.autoScrollRun] else [])
         ++ [OrchEvent.contentExtract, OrchEvent.browserClose, OrchEvent.pwStop])

/-- Dispatch of page response events: the on_response listener processes
them only when it was registered, which source lines 92-93 do exactly
when retry_403 is true. -/
def dispatch_responses (cfg : FetchConfig) (rng : Nat → Nat) (events : List RespEvent) :
    Nat × List Action :=
  if cfg.retry_403 then processEvents cfg.max_retries rng events else (0, [])

/-- Recognize a browser launch event. -/
def isLaunch : OrchEvent → Bool
  | OrchEvent.browserLaunch => true
  | _ => false

/-- Recognize an explicit browser.close() event. -/
def isClose : OrchEvent → Bool
  | OrchEvent.browserClose => true
  | _ => false

/-- Recognize an orchestrator navigation event. -/
def isMainGoto : OrchEvent → Bool
  | OrchEvent.goto _ _ => true
  | _ => false

/-- Recognize a context creation event. -/
def isNewContext : OrchEvent → Bool
  | OrchEvent.newContext _ => true
  | _ => false

/-- Recognize the registration of the 403 response listener. -/
def isListenerInstall : OrchEvent → Bool
  | OrchEvent.responseListenerInstall => true
  | _ => false

/-- The mutable session-context state the retry effects act on. -/
structure SessionState where
  user_agent : String
  locale : String
  timezone_id : String
  extra_headers : List (String × String)
deriving DecidableEq, Repr

/-- Initial session state from the applied context options. -/
def init_session (opts : ContextOpts) : SessionState :=
  ⟨opts.user_agent, opts.locale, opts.timezone_id, []⟩

/-- Effect of one handler action on the session context.
set_extra_http_headers replaces the extra-header map with its argument;
set_user_agent replaces the user agent; the other actions do not touch
the context. -/
def applyAction (s : SessionState) (a : Action) : SessionState :=
  match a with
  | Action.setUserAgent ua => { s with user_agent := ua }
  | Action.setExtraHTTPHeaders k v => { s with extra_headers := [(k, v)] }
  | _ => s

/-- Fold a list of handler actions over the session context. -/
def applyActions (s : SessionState) (acts : List Action) : SessionState :=
  acts.foldl applyAction s

theorem toNat_ofNat_small (n : Nat) (h : n < 55296) : (Char.ofNat n).toNat = n := by
  simp [Char.ofNat, Nat.isValidChar, h, Char.ofNatAux, Char.toNat, UInt32.toNat]

theorem lowerChar_idem (c : Char) : lowerChar (lowerChar c) = lowerChar c := by
  unfold lowerChar
  by_cases h : 65 ≤ c.toNat ∧ c.toNat ≤ 90
  · rw [if_pos h]
    have hv : c.toNat + 32 < 55296 := by omega
    rw [if_neg]
    rw [toNat_ofNat_small _ hv]
    omega
  · rw [if_neg h, if_neg h]

theorem pyLower_idem (s : String) : pyLower (pyLower s) = pyLower s := by
  unfold pyLower
  apply congrArg String.mk
  rw [List.map_map]
  exact List.map_congr_left (fun a _ => lowerChar_idem a)

theorem on_response_spec (N c r : Nat) (e : RespEvent) :
    (e.status = 403 ∧ c < N ∧
      on_response N c r e =
        (c + 1,
         [Action.incAttempts (c + 1),
          Action.logRetry (c + 1) e.url,
          Action.drawUA (random_choice UA_POOL r),
          Action.setExtraHTTPHeaders "Cache-Control" "no-cache",
          Action.setUserAgent (random_choice UA_POOL r),
          Action.sleep (8 * (c + 1)),
          Action.goto e.url "networkidle"]))
    ∨ (¬(e.status = 403 ∧ c < N) ∧ on_response N c r e = (c, [])) := by
  unfold on_response
  by_cases h1 : e.status ≠ 403
  · right
    exact ⟨fun hc => h1 hc.1, by rw [if_pos h1]⟩
  · by_cases h2 : c ≥ N
    · right
      exact ⟨fun hc => by omega, by rw [if_neg h1, if_pos h2]⟩
    · left
      exact ⟨by omega, by omega, by rw [if_neg h1, if_neg h2]⟩

theorem handler_gotoCount (N c r : Nat) (e : RespEvent) :
    gotoCount (on_response N c r e).2 = (if e.status = 403 ∧ c < N then 1 else 0) := by
  rcases on_response_spec N c r e with ⟨h1, h2, hEq⟩ | ⟨hn, hEq⟩
  · rw [hEq, if_pos ⟨h1, h2⟩]
    simp [gotoCount, List.countP_cons, isGoto]
  · rw [hEq, if_neg hn]
    simp [gotoCount]

theorem handler_newCount (N c r : Nat) (e : RespEvent) :
    (on_response N c r e).1 = c + gotoCount (on_response N c r e).2 := by
  rcases on_response_spec N c r e with ⟨h1, h2, hEq⟩ | ⟨hn, hEq⟩
  · rw [hEq]
    simp [gotoCount, List.countP_cons, isGoto]
  · rw [hEq]
    simp [gotoCount]

theorem runHandler_count (N : Nat) (rng : Nat → Nat) (es : List RespEvent) :
    ∀ i c, (runHandler N rng es i c).1 = c + gotoCount (runHandler N rng es i c).2 := by
  induction es with
  | nil => intro i c; simp [runHandler, gotoCount]
  | cons e rest ih =>
    intro i c
    simp only [runHandler, gotoCount, List.countP_append]
    have h1 := handler_newCount N c (rng i) e
    have h2 := ih (i + 1) (on_response N c (rng i) e).1
    simp only [gotoCount] at h1 h2
    omega

theorem runHandler_le (N : Nat) (rng : Nat → Nat) (es : List RespEvent) :
    ∀ i c, c ≤ N → (runHandler N rng es i c).1 ≤ N := by
  induction es with
  | nil => intro i c hc; simpa [runHandler] using hc
  | cons e rest ih =>
    intro i c hc
    simp only [runHandler]
    apply ih
    rcases on_response_spec N c (rng i) e with ⟨_, h2, hEq⟩ | ⟨_, hEq⟩
    · rw [hEq]; omega
    · rw [hEq]; exact hc

theorem runHandler_all403 (N : Nat) (rng : Nat → Nat) (es : List RespEvent)
    (hall : ∀ e ∈ es, e.status = 403) :
    ∀ i c, gotoCount (runHandler N rng es i c).2 = min es.length (N - c) := by
  induction es with
  | nil => intro i c; simp [runHandler, gotoCount]
  | cons e rest ih =>
    intro i c
    have he : e.status = 403 := hall e (List.mem_cons_self e rest)
    have hrest : ∀ x ∈ rest, x.status = 403 := fun x hx => hall x (List.mem_cons_of_mem e hx)
    simp only [runHandler, gotoCount, List.countP_append]
    have hstep := handler_gotoCount N c (rng i) e
    have hcnt := handler_newCount N c (rng i) e
    have hrec := ih hrest (i + 1) (on_response N c (rng i) e).1
    simp only [gotoCount] at hstep hcnt hrec
    by_cases hc : c < N
    · rw [if_pos ⟨he, hc⟩] at hstep
      rw [hstep] at hcnt ⊢
      rw [hcnt] at hrec
      rw [hcnt, hrec]
      simp only [List.length_cons]
      omega
    · rw [if_neg (fun hp => hc hp.2)] at hstep
      rw [hstep] at hcnt ⊢
      simp only [Nat.add_zero] at hcnt
      rw [hcnt] at hrec
      rw [hcnt, hrec]
      simp only [List.length_cons]
      omega

/-- C1: with retryOn403 enabled and maxRetries = N, however the
environment delivers response events the handler initiates at most N
re-navigations and its attempts counter never exceeds N; a single event
yields a re-navigation only under the attempts-below-N guard and then
increments the counter with it; and on the observed trace in which the
original navigation and each of the retries it spawns answer with a
single 403 response (N + 1 events in all), exactly N re-navigations are
initiated. -/
theorem retry_navigations_bounded_and_exhaustive :
    ∀ (N : Nat) (rng : Nat → Nat) (events : List RespEvent) (u : String),
      gotoCount (processEvents N rng events).2 ≤ N
      ∧ (processEvents N rng events).1 ≤ N
      ∧ (∀ (c r : Nat) (e : RespEvent),
          gotoCount (on_response N c r e).2 ≤ (if c < N then 1 else 0)
          ∧ (on_response N c r e).1 = c + gotoCount (on_response N c r e).2)
      ∧ gotoCount
          (processEvents N rng ((List.range (N + 1)).map (fun k => ⟨403, u, k⟩))).2 = N := by
  intro N rng events u
  refine ⟨?_, ?_, ?_, ?_⟩
  · have h1 := runHandler_count N rng events 0 0
    have h2 := runHandler_le N rng events 0 0 (Nat.zero_le N)
    unfold processEvents
    omega
  · exact runHandler_le N rng events 0 0 (Nat.zero_le N)
  · intro c r e
    refine ⟨?_, handler_newCount N c r e⟩
    rw [handler_gotoCount N c r e]
    by_cases hc : c < N
    · rw [if_pos hc]
      split <;> omega
    · rw [if_neg hc]
      rw [if_neg (fun hp => hc hp.2)]
  · have hall : ∀ e ∈ (List.range (N + 1)).map
        (fun k => (⟨403, u, k⟩ : RespEvent)), e.status = 403 := by
      intro e he
      rcases List.mem_map.mp he with ⟨k, _, rfl⟩
      rfl
    have h := runHandler_all403 N rng _ hall 0 0
    unfold processEvents
    rw [h]
    simp [List.length_map, List.length_range]

/-- C2 counterexample: with maxRetries = 2, two 403 response events both
produced by the original navigation (attempt tag 0) — the second being a
duplicate arriving after the first retry decision — each drive a
re-navigation, so the same attempt drives two retries, not only the
first qualifying event. -/
theorem duplicate_403_drives_second_retry :
    (ev403 0).attempt = 0
    ∧ gotoCount (processEvents 2 (fun _ => 0) [ev403 0, ev403 0]).2 = 2
    ∧ ¬ gotoCount (processEvents 2 (fun _ => 0) [ev403 0, ev403 0]).2 ≤ 1 := by
  decide

/-- C2 amended: every 403 response event processed while the attempts
counter is below maxRetries drives exactly one retry, whether or not it
is a duplicate for its navigation attempt (the handler never reads the
attempt that produced an event); duplicates are limited only by the
bound check, under which the counter counts every retry. -/
theorem each_qualifying_403_drives_one_retry :
    ∀ (N c r : Nat) (e : RespEvent),
      gotoCount (on_response N c r e).2 = (if e.status = 403 ∧ c < N then 1 else 0)
      ∧ (on_response N c r e).1 = c + gotoCount (on_response N c r e).2 := by
  intro N c r e
  constructor
  · rcases on_response_spec N c r e with ⟨h1, h2, hEq⟩ | ⟨hn, hEq⟩
    · rw [hEq, if_pos ⟨h1, h2⟩]
      simp [gotoCount, List.countP_cons, isGoto]
    · rw [hEq, if_neg hn]
      simp [gotoCount]
  · rcases on_response_spec N c r e with ⟨_, _, hEq⟩ | ⟨_, hEq⟩
    · rw [hEq]; simp [gotoCount, List.countP_cons, isGoto]
    · rw [hEq]; simp [gotoCount]

/-- C3: when a 403 is observed with attempts below maxRetries, the
handler increments the counter, logs, draws a new user agent from the
pool, sets the Cache-Control no-cache extra header, applies the drawn
user agent, sleeps 0.8 times the new counter value in seconds (8 times
in tenths of a second, so linear backoff 0.8 k before retry k), and then
re-navigates to the URL that produced the 403 — in exactly this order. -/
theorem blocked_to_retrying_effect_order :
    ∀ (N c r : Nat) (e : RespEvent), e.status = 403 → c < N →
      on_response N c r e =
        (c + 1,
         [Action.incAttempts (c + 1),
          Action.logRetry (c + 1) e.url,
          Action.drawUA (random_choice UA_POOL r),
          Action.setExtraHTTPHeaders "Cache-Control" "no-cache",
          Action.setUserAgent (random_choice UA_POOL r),
          Action.sleep (8 * (c + 1)),
          Action.goto e.url "networkidle"]) := by
  intro N c r e h1 h2
  rcases on_response_spec N c r e with ⟨_, _, hEq⟩ | ⟨hn, _⟩
  · exact hEq
  · exact absurd ⟨h1, h2⟩ hn

/-- Witness for C3 at maxRetries = 2, counter 0, on a concrete 403. -/
theorem blocked_to_retrying_effect_order_witness :
    (ev403 0).status = 403 ∧ 0 < 2 ∧
      on_response 2 0 0 (ev403 0) =
        (1,
         [Action.incAttempts 1,
          Action.logRetry 1 "https://example.com/",
          Action.drawUA (random_choice UA_POOL 0),
          Action.setExtraHTTPHeaders "Cache-Control" "no-cache",
          Action.setUserAgent (random_choice UA_POOL 0),
          Action.sleep 8,
          Action.goto "https://example.com/" "networkidle"]) :=
  ⟨rfl, by decide, blocked_to_retrying_effect_order 2 0 0 (ev403 0) rfl (by decide)⟩

theorem fetch_trace_counts (cfg : FetchConfig) (w : World) (hl : w.launch_fails = false) :
    List.countP isLaunch (_fetch_html_async cfg w).2 = 1
    ∧ List.countP isNewContext (_fetch_html_async cfg w).2 = 1
    ∧ List.filter isMainGoto (_fetch_html_async cfg w).2 =
        [OrchEvent.goto cfg.url cfg.wait_until]
    ∧ List.countP isListenerInstall (_fetch_html_async cfg w).2 =
        (if cfg.retry_403 = true then 1 else 0)
    ∧ (_fetch_html_async cfg w).2.getLast? = some OrchEvent.pwStop
    ∧ (w.goto_outcome = GotoOutcome.ok →
        List.countP isClose (_fetch_html_async cfg w).2 = 1) := by
  unfold _fetch_html_async
  rw [hl]
  cases hgo : w.goto_outcome <;>
    cases cfg.stealth <;> cases cfg.block_media <;> cases cfg.retry_403 <;> cases cfg.scroll <;>
      simp [List.countP_append, List.countP_cons, List.filter_append, List.filter,
        List.getLast?_cons_cons, List.getLast?_singleton,
        isLaunch, isNewContext, isMainGoto, isListenerInstall, isClose]

theorem launch_fail_trace (cfg : FetchConfig) (w : World) (hl : w.launch_fails = true) :
    (_fetch_html_async cfg w).2 = [OrchEvent.pwStart, OrchEvent.pwStop] := by
  unfold _fetch_html_async
  rw [hl]
  simp

/-- C4: with retryOn403 disabled, no response listener is registered, so
no delivered response event — whatever its status — produces a
re-navigation, and the orchestrator performs at most its single original
navigation. -/
theorem no_retry_nav_when_disabled :
    ∀ (cfg : FetchConfig) (rng : Nat → Nat) (events : List RespEvent) (w : World),
      cfg.retry_403 = false →
        gotoCount (dispatch_responses cfg rng events).2 = 0
        ∧ List.countP isListenerInstall (_fetch_html_async cfg w).2 = 0
        ∧ List.countP isMainGoto (_fetch_html_async cfg w).2 ≤ 1 := by
  intro cfg rng events w hr
  refine ⟨?_, ?_, ?_⟩
  · unfold dispatch_responses
    rw [hr]
    simp [gotoCount]
  · by_cases hl : w.launch_fails = true
    · rw [launch_fail_trace cfg w hl]
      simp [List.countP_cons, isListenerInstall]
    · have h := (fetch_trace_counts cfg w (by simpa using hl)).2.2.2.1
      rw [hr] at h
      simpa using h
  · by_cases hl : w.launch_fails = true
    · rw [launch_fail_trace cfg w hl]
      simp [List.countP_cons, isMainGoto]
    · have h := (fetch_trace_counts cfg w (by simpa using hl)).2.2.1
      have : List.countP isMainGoto (_fetch_html_async cfg w).2 =
          List.length (List.filter isMainGoto (_fetch_html_async cfg w).2) := by
        rw [List.countP_eq_length_filter]
      rw [this, h]
      simp

/-- A fetch configuration with the source defaults (retryOn403 off). -/
def cfg0 : FetchConfig :=
  { url := "https://example.com/" }

/-- An environment in which launch succeeds and navigation completes. -/
def w0 : World :=
  ⟨false, GotoOutcome.ok, "<html></html>", 0⟩

/-- An environment in which the browser launch fails. -/
def w_launch_fail : World :=
  ⟨true, GotoOutcome.ok, "", 0⟩

/-- Witness for C4: defaults (retryOn403 off), two 403 events delivered,
launch and navigation succeed — no retry navigation, no listener, one
original navigation. -/
theorem no_retry_nav_when_disabled_witness :
    gotoCount (dispatch_responses cfg0 (fun _ => 0) [ev403 0, ev403 1]).2 = 0
    ∧ List.countP isListenerInstall (_fetch_html_async cfg0 w0).2 = 0
    ∧ List.countP isMainGoto (_fetch_html_async cfg0 w0).2 ≤ 1 :=
  no_retry_nav_when_disabled cfg0 (fun _ => 0) [ev403 0, ev403 1] w0 rfl

/-- C6 counterexample: on the launch-failure path the call creates no
browser session at all, so the claim that exactly one browser session is
created on every path, the launch-failure path included, fails. -/
theorem launch_failure_creates_no_session :
    List.countP isLaunch (_fetch_html_async cfg0 w_launch_fail).2 = 0
    ∧ ¬ List.countP isLaunch (_fetch_html_async cfg0 w_launch_fail).2 = 1 := by
  decide

/-- C6 amended: each fetch call creates at most one browser session —
exactly one whenever the launch succeeds and none when it fails — and on
every path, success or failure, the session (when one exists) is torn
down before the call returns: the last session event is always the
async-with exit that stops the driver and with it any launched browser,
and on the successful path an explicit browser close precedes it.  Fatal
errors therefore reach the caller only after teardown. -/
theorem session_lifecycle_guarantees :
    ∀ (cfg : FetchConfig) (w : World),
      List.countP isLaunch (_fetch_html_async cfg w).2 =
        (if w.launch_fails then 0 else 1)
      ∧ (_fetch_html_async cfg w).2.getLast? = some OrchEvent.pwStop
      ∧ (w.launch_fails = false → w.goto_outcome = GotoOutcome.ok →
          List.countP isClose (_fetch_html_async cfg w).2 = 1) := by
  intro cfg w
  by_cases hl : w.launch_fails = true
  · rw [launch_fail_trace cfg w hl, hl]
    refine ⟨by simp [List.countP_cons, isLaunch], by simp, ?_⟩
    intro hfalse
    exact absurd hfalse (by simp)
  · have hl2 : w.launch_fails = false := by simpa using hl
    have h := fetch_trace_counts cfg w hl2
    rw [hl2]
    exact ⟨by simpa using h.1, h.2.2.2.2.1, fun _ => h.2.2.2.2.2⟩

/-- Witness for C6 amended: a run with successful launch and navigation. -/
theorem session_lifecycle_guarantees_witness :
    List.countP isLaunch (_fetch_html_async cfg0 w0).2 = (if w0.launch_fails then 0 else 1)
    ∧ (_fetch_html_async cfg0 w0).2.getLast? = some OrchEvent.pwStop
    ∧ List.countP isClose (_fetch_html_async cfg0 w0).2 = 1 :=
  ⟨(session_lifecycle_guarantees cfg0 w0).1,
   (session_lifecycle_guarantees cfg0 w0).2.1,
   (session_lifecycle_guarantees cfg0 w0).2.2 rfl rfl⟩

theorem random_choice_mem (r : Nat) : random_choice UA_POOL r ∈ UA_POOL := by
  have h2 : r % 2 = 0 ∨ r % 2 = 1 := by omega
  have hlen : UA_POOL.length = 2 := rfl
  unfold random_choice
  rw [hlen]
  rcases h2 with h | h <;> rw [h] <;> simp [UA_POOL]

theorem applyActions_locale_tz (acts : List Action) :
    ∀ s : SessionState,
      (applyActions s acts).locale = s.locale
      ∧ (applyActions s acts).timezone_id = s.timezone_id := by
  induction acts with
  | nil => intro s; exact ⟨rfl, rfl⟩
  | cons a rest ih =>
    intro s
    have h := ih (applyAction s a)
    have ha : (applyAction s a).locale = s.locale ∧
        (applyAction s a).timezone_id = s.timezone_id := by
      cases a <;> simp [applyAction]
    simp only [applyActions, List.foldl_cons] at h ⊢
    exact ⟨h.1.trans ha.1, h.2.trans ha.2⟩

theorem applyActions_ua_stable (acts : List Action) :
    ∀ s : SessionState, (∀ ua, Action.setUserAgent ua ∉ acts) →
      (applyActions s acts).user_agent = s.user_agent := by
  induction acts with
  | nil => intro s _; rfl
  | cons a rest ih =>
    intro s hno
    have hrest : ∀ ua, Action.setUserAgent ua ∉ rest := by
      intro ua hmem
      exact hno ua (List.mem_cons_of_mem a hmem)
    have ha : (applyAction s a).user_agent = s.user_agent := by
      cases a with
      | setUserAgent ua => exact absurd (List.mem_cons_self _ _) (hno ua)
      | _ => simp [applyAction]
    simp only [applyActions, List.foldl_cons] at ih ⊢
    exact (ih (applyAction s a) hrest).trans ha

theorem setUserAgent_only_on_retry (N c r : Nat) (e : RespEvent) (ua : String)
    (hmem : Action.setUserAgent ua ∈ (on_response N c r e).2) :
    e.status = 403 ∧ c < N := by
  rcases on_response_spec N c r e with ⟨h1, h2, _⟩ | ⟨_, hEq⟩
  · exact ⟨h1, h2⟩
  · rw [hEq] at hmem
    exact absurd hmem (List.not_mem_nil _)

/-- C7: with stealth on, the identity profile is generated once at
context creation — one user agent drawn from the pool by random.choice
and the fixed locale en-US, timezone America/New_York, viewport
1366 x 768 and light color scheme; every pool entry is reachable and
two separate calls may draw different user agents; across any sequence
of handler effects the session locale and timezone never change, and the
user agent changes only if a set-user-agent effect occurred, which the
handler emits only on the 403 retry path. -/
theorem stealth_profile_consistency :
    ∀ (r : Nat) (acts : List Action) (s : SessionState),
      build_context_opts true r =
        some { user_agent := random_choice UA_POOL r, locale := "en-US",
               timezone_id := "America/New_York", viewport_width := 1366,
               viewport_height := 768, color_scheme := "light" }
      ∧ random_choice UA_POOL r ∈ UA_POOL
      ∧ (∀ ua ∈ UA_POOL, ∃ r2, random_choice UA_POOL r2 = ua)
      ∧ (∃ r1 r2 : Nat, random_choice UA_POOL r1 ≠ random_choice UA_POOL r2)
      ∧ (applyActions s acts).locale = s.locale
      ∧ (applyActions s acts).timezone_id = s.timezone_id
      ∧ ((applyActions s acts).user_agent ≠ s.user_agent →
          ∃ ua, Action.setUserAgent ua ∈ acts)
      ∧ (∀ (N c r2 : Nat) (e : RespEvent) (ua : String),
          Action.setUserAgent ua ∈ (on_response N c r2 e).2 → e.status = 403 ∧ c < N)
      ∧ (∀ (cfg : FetchConfig) (w : World), w.launch_fails = false →
          List.countP isNewContext (_fetch_html_async cfg w).2 = 1) := by
  intro r acts s
  refine ⟨rfl, random_choice_mem r, ?_, ⟨0, 1, by decide⟩,
    (applyActions_locale_tz acts s).1, (applyActions_locale_tz acts s).2, ?_,
    setUserAgent_only_on_retry, fun cfg w hl => (fetch_trace_counts cfg w hl).2.1⟩
  · intro ua hmem
    have : ua ∈ ([UA_POOL.get ⟨0, by decide⟩, UA_POOL.get ⟨1, by decide⟩] : List String) := hmem
    rcases List.mem_cons.mp this with h | h
    · exact ⟨0, by rw [h]; rfl⟩
    · rcases List.mem_cons.mp h with h1 | h1
      · exact ⟨1, by rw [h1]; rfl⟩
      · exact absurd h1 (List.not_mem_nil ua)
  · intro hne
    by_contra hno
    push_neg at hno
    exact hne (applyActions_ua_stable acts s hno)

/-- Witness for C7: a concrete pick, a concrete effect list that does
rotate the user agent, and a successful run. -/
theorem stealth_profile_consistency_witness :
    build_context_opts true 0 =
      some { user_agent := random_choice UA_POOL 0, locale := "en-US",
             timezone_id := "America/New_York", viewport_width := 1366,
             viewport_height := 768, color_scheme := "light" }
    ∧ (∃ ua, Action.setUserAgent ua ∈ ([Action.setUserAgent "x"] : List Action))
    ∧ ((403 : Nat) = 403 ∧ (0 : Nat) < 2)
    ∧ List.countP isNewContext (_fetch_html_async cfg0 w0).2 = 1 := by
  refine ⟨(stealth_profile_consistency 0 [] ⟨"", "", "", []⟩).1, ?_, ?_, ?_⟩
  · exact (stealth_profile_consistency 0 [Action.setUserAgent "x"]
      ⟨"", "", "", []⟩).2.2.2.2.2.2.1 (by decide)
  · exact (stealth_profile_consistency 0 [] ⟨"", "", "", []⟩).2.2.2.2.2.2.2.1
      2 0 0 (ev403 0) (random_choice UA_POOL 0) (by decide)
  · exact (stealth_profile_consistency 0 [] ⟨"", "", "", []⟩).2.2.2.2.2.2.2.2 cfg0 w0 rfl

/-- C10: every re-navigation issued by the retry handler uses the
networkidle wait condition whatever the caller requested, while the
orchestrator's single original navigation is the only one that uses the
caller-specified wait condition. -/
theorem retry_goto_wait_networkidle :
    (∀ (N c r : Nat) (e : RespEvent) (u wa : String),
        Action.goto u wa ∈ (on_response N c r e).2 → wa = "networkidle")
    ∧ (∀ (cfg : FetchConfig) (w : World), w.launch_fails = false →
        List.filter isMainGoto (_fetch_html_async cfg w).2 =
          [OrchEvent.goto cfg.url cfg.wait_until]) := by
  constructor
  · intro N c r e u wa hmem
    rcases on_response_spec N c r e with ⟨_, _, hEq⟩ | ⟨_, hEq⟩
    · rw [hEq] at hmem
      simp only [List.mem_cons, List.not_mem_nil, or_false] at hmem
      rcases hmem with h | h | h | h | h | h | h
      · exact Action.noConfusion h
      · exact Action.noConfusion h
      · exact Action.noConfusion h
      · exact Action.noConfusion h
      · exact Action.noConfusion h
      · exact Action.noConfusion h
      · injection h with h1 h2
    · rw [hEq] at hmem
      exact absurd hmem (List.not_mem_nil _)
  · intro cfg w hl
    exact (fetch_trace_counts cfg w hl).2.2.1

/-- Witness for C10: the handler navigation out of a concrete 403 uses
networkidle, and a concrete successful run navigates once with the
caller wait condition. -/
theorem retry_goto_wait_networkidle_witness :
    ("networkidle" : String) = "networkidle"
    ∧ List.filter isMainGoto (_fetch_html_async cfg0 w0).2 =
        [OrchEvent.goto cfg0.url cfg0.wait_until] :=
  ⟨retry_goto_wait_networkidle.1 2 0 0 (ev403 0) "https://example.com/" "networkidle"
      (by decide),
   retry_goto_wait_networkidle.2 cfg0 w0 rfl⟩

/-- C5 counterexample: a request whose path component ends in the
denylisted extension .png but which carries a query string is allowed to
continue, because the handler tests the full URL, query included, so
not every request whose path ends in a denylisted extension is aborted. -/
theorem path_png_with_query_not_aborted :
    pyEndsWith (pyLower (stripQueryFragment "http://site.com/img.png?v=1")) ".png" = true
    ∧ _maybe_abort_media "http://site.com/img.png?v=1" MEDIA_EXTENSIONS =
        RouteAction.continue_
    ∧ ¬ _maybe_abort_media "http://site.com/img.png?v=1" MEDIA_EXTENSIONS =
        RouteAction.abort := by
  decide

/-- C5 amended: with blockMedia on, a request is aborted exactly when
its full URL, lowercased, ends with a denylisted extension — in
particular one whose URL ends in .png is aborted and one whose URL ends
in .html is allowed to continue; a path ending in a denylisted extension
that is followed by a query or fragment does not by itself abort. -/
theorem media_block_decides_on_full_url :
    (∀ (url : String) (banned : List String),
        _maybe_abort_media url banned = RouteAction.abort ↔
          ∃ e, e ∈ banned ∧ pyEndsWith (pyLower url) e = true)
    ∧ _maybe_abort_media "https://x.com/a.png" MEDIA_EXTENSIONS = RouteAction.abort
    ∧ _maybe_abort_media "https://x.com/a.html" MEDIA_EXTENSIONS =
        RouteAction.continue_ := by
  refine ⟨?_, by decide, by decide⟩
  intro url banned
  unfold _maybe_abort_media
  by_cases hab : (banned.any fun e => pyEndsWith (pyLower url) e) = true
  · rw [if_pos hab]
    exact iff_of_true rfl (by simpa [List.any_eq_true] using hab)
  · rw [if_neg hab]
    refine iff_of_false (by simp) ?_
    simpa [List.any_eq_true] using hab

/-- C9 counterexample: a URL whose path ends in a denylisted extension
and which carries a query string is nevertheless aborted when the query
itself also ends with a denylisted extension, because the suffix test
runs on the full URL — so such requests are not always allowed to
continue. -/
theorem query_ending_in_extension_aborted :
    pyEndsWith (pyLower (stripQueryFragment "http://site.com/img.png?file=photo.png"))
        ".png" = true
    ∧ List.contains "http://site.com/img.png?file=photo.png".data '?' = true
    ∧ _maybe_abort_media "http://site.com/img.png?file=photo.png" MEDIA_EXTENSIONS =
        RouteAction.abort := by
  decide

/-- C9 amended: the abort decision is computed on the full request URL
lowercased — matching is case-insensitive, so a URL ending in .PNG is
aborted — and a URL whose path ends in a denylisted extension but whose
query or fragment continues past it is allowed, unless the full URL
itself still ends with a denylisted extension. -/
theorem interceptor_case_insensitive_on_full_url :
    (∀ (url : String) (banned : List String),
        _maybe_abort_media (pyLower url) banned = _maybe_abort_media url banned)
    ∧ _maybe_abort_media "http://x.com/IMG.PNG" MEDIA_EXTENSIONS = RouteAction.abort
    ∧ _maybe_abort_media "http://x.com/img.png?v=1" MEDIA_EXTENSIONS =
        RouteAction.continue_ := by
  refine ⟨?_, by decide, by decide⟩
  intro url banned
  unfold _maybe_abort_media
  rw [pyLower_idem]

theorem scroll_fixed_height (h : Nat) :
    ∀ (fuel : Nat) (k scrolled : Nat), h ≤ scrolled + 1024 * fuel → 1 ≤ fuel →
      ∃ n, 1 ≤ n ∧
        autoScrollGo (fun _ => h) fuel k scrolled =
          some (List.replicate n (ScrollAct.scrollStep 40 1024) ++
                [ScrollAct.pauseMs 400, ScrollAct.resolveReady])
        ∧ h ≤ scrolled + 1024 * n
        ∧ (n = 1 ∨ scrolled + 1024 * (n - 1) < h) := by
  intro fuel
  induction fuel with
  | zero => intro k scrolled h1 h2; omega
  | succ f ih =>
    intro k scrolled hb _
    by_cases hstop : h ≤ scrolled + 1024
    · refine ⟨1, le_refl 1, ?_, by omega, Or.inl rfl⟩
      simp [autoScrollGo, hstop, List.replicate]
    · have hf : 1 ≤ f := by omega
      have hb2 : h ≤ (scrolled + 1024) + 1024 * f := by omega
      obtain ⟨n, hn1, hEq, hle, hmin⟩ := ih (k + 1) (scrolled + 1024) hb2 hf
      refine ⟨n + 1, by omega, ?_, by omega, ?_⟩
      · simp only [autoScrollGo, if_neg hstop, hEq]
        rw [List.replicate_succ, List.cons_append]
      · right
        rcases hmin with rfl | hlt
        · simpa using hstop
        · have : scrolled + 1024 + 1024 * (n - 1) = scrolled + 1024 * n := by omega
          omega

/-- C8: if scrolling is requested, the injected script scrolls down by
the fixed distance 1024 px on the fixed 40 ms interval until the
accumulated distance reaches the measured document height, then pauses
400 ms before resolving readiness; each tick scrolls first and then
checks, so when the height measured at the first check does not exceed
the initial 768 px viewport the loop stops at that first check — one
initial tick and zero scroll steps after it, whatever the later
height measurements would have been. -/
theorem auto_scroll_contract :
    (∀ (heights : Nat → Nat) (fuel : Nat), 1 ≤ fuel → heights 0 ≤ 768 →
        _auto_scroll heights fuel =
          some [ScrollAct.scrollStep 40 1024, ScrollAct.pauseMs 400,
                ScrollAct.resolveReady])
    ∧ (∀ (h fuel : Nat), h ≤ 1024 * fuel → 1 ≤ fuel →
        ∃ n, 1 ≤ n ∧
          _auto_scroll (fun _ => h) fuel =
            some (List.replicate n (ScrollAct.scrollStep 40 1024) ++
                  [ScrollAct.pauseMs 400, ScrollAct.resolveReady])
          ∧ h ≤ 1024 * n
          ∧ (n = 1 ∨ 1024 * (n - 1) < h)) := by
  constructor
  · intro heights fuel hf hh
    cases fuel with
    | zero => omega
    | succ f =>
      unfold _auto_scroll autoScrollGo
      rw [if_pos (by omega)]
  · intro h fuel hb hf
    have := scroll_fixed_height h fuel 0 0 (by omega) hf
    simpa [_auto_scroll] using this

/-- Witness for C8: a 500 px page stops at the first check; a 2000 px
page needs two ticks. -/
theorem auto_scroll_contract_witness :
    _auto_scroll (fun _ => 500) 3 =
      some [ScrollAct.scrollStep 40 1024, ScrollAct.pauseMs 400, ScrollAct.resolveReady]
    ∧ ∃ n, 1 ≤ n ∧
        _auto_scroll (fun _ => 2000) 3 =
          some (List.replicate n (ScrollAct.scrollStep 40 1024) ++
                [ScrollAct.pauseMs 400, ScrollAct.resolveReady])
        ∧ 2000 ≤ 1024 * n
        ∧ (n = 1 ∨ 1024 * (n - 1) < 2000) :=
  ⟨auto_scroll_contract.1 (fun _ => 500) 3 (by decide) (by decide),
   auto_scroll_contract.2 2000 3 (by decide) (by decide)⟩

end PlaywrightFetch
